import Mathlib

/-!
Verification of the AI-Study-Planner frontend against its specification.

The TypeScript sources are embedded shallowly: JavaScript strings become
`List Char`, pure functions become Lean functions, stateful React-store
updates become explicit state-passing functions, and functions that can
throw return `Except`.  The backend retrieval pipeline (Retriever,
Relevance Guard, Response Builder) is not part of this repository's
sources, so it is modelled from the specification text where a claim
needs it; those definitions say so in their doc comments.
-/

/-- JavaScript strings are modelled as lists of characters. -/
abbrev Str := List Char

/-! ## String utilities used by `src/frontend/src/utils/csvLoader.ts` -/

/-- Splits a character list at every occurrence of `sep`; always returns at
least one piece, matching the behaviour of JavaScript `String.split`. -/
def splitOnChar (sep : Char) : Str → List Str
  | [] => [[]]
  | c :: cs =>
    let rest := splitOnChar sep cs
    if c = sep then [] :: rest
    else
      match rest with
      | [] => [[c]]
      | r :: rs => (c :: r) :: rs

/-- Drops one trailing carriage return, if present. -/
def dropTrailingCR (l : Str) : Str :=
  if l.getLast? = some '\r' then l.dropLast else l

/-- Embeds `fileContent.split(/\r?\n/)`: splitting at `\r\n` or `\n` is the
same as splitting at `\n` and then removing one trailing `\r` per piece. -/
def splitLines (content : Str) : List Str :=
  (splitOnChar '\n' content).map dropTrailingCR

/-- Whitespace recognised by `String.prototype.trim` (ASCII portion). -/
def isWs (c : Char) : Bool :=
  c = ' ' || c = '\t' || c = '\n' || c = '\r' || c = '\x0b' || c = '\x0c'

/-- Embeds `line.trim()`. -/
def trimStr (s : Str) : Str :=
  ((s.dropWhile isWs).reverse.dropWhile isWs).reverse

/-- Loop body of the `parseLine` closure in `csvLoader.ts`: walks the line
character by character, toggling `inQuote` on `"` (the quote character is
not emitted), splitting on commas only outside quotes, and pushing the
final field at the end. -/
def parseLineGo : Str → Str → Bool → List Str
  | [], current, _ => [current]
  | ch :: rest, current, inQuote =>
    if ch = '"' then parseLineGo rest current (!inQuote)
    else if ch = ',' ∧ inQuote = false then current :: parseLineGo rest [] inQuote
    else parseLineGo rest (current ++ [ch]) inQuote

/-- Embeds the `parseLine` closure of `loadCourses`. -/
def parseLine (line : Str) : List Str :=
  parseLineGo line [] false

/-- Embeds `columns[6].replace(/^"|"$/g, '')`: removes at most one leading
and one trailing quote character. -/
def stripEdgeQuotes (s : Str) : Str :=
  let s1 :=
    match s with
    | [] => []
    | c :: rest => if c = '"' then rest else c :: rest
  match s1.reverse with
  | [] => s1
  | c :: rest => if c = '"' then rest.reverse else s1

/-- Embeds `coverUrl.includes(pat)`: substring-occurrence test. -/
def hasTok (pat : Str) : Str → Bool
  | [] => pat.isEmpty
  | c :: cs => pat.isPrefixOf (c :: cs) || hasTok pat cs

/-- Embeds `coverUrl.split(pat)[0]`: the prefix of the string strictly
before the first occurrence of `pat` (the whole string when `pat` does not
occur). -/
def dropAfterTok (pat : Str) : Str → Str
  | [] => []
  | c :: cs => if pat.isPrefixOf (c :: cs) then [] else c :: dropAfterTok pat cs

/-- The `'?token='` pattern stripped from cover URLs by the security fix in
`csvLoader.ts`. -/
def tokenPat : Str := "?token=".toList

/-! ## The catalog loader `loadCourses` (`src/frontend/src/utils/csvLoader.ts`) -/

/-- The course record constructed by `loadCourses` (fields pushed at
`csvLoader.ts:59`; `duration_hours` and `skills` columns are read but not
part of the constructed object). -/
structure Course where
  course_id : Str
  title : Str
  category : Str
  level : Str
  description : Str
  instructor : Str
  thumbnail : Str
deriving DecidableEq, Repr

/-- Builds one course record from a parsed row of at least 9 columns,
including the token-stripping security fix on the cover column.  The
JavaScript guard `coverUrl && coverUrl.includes('?token=')` is equivalent
to the occurrence test alone, because the empty string contains no
occurrence of `'?token='`. -/
def mkCourse (cols : List Str) : Course :=
  let cover := cols.getD 8 []
  let coverUrl := if hasTok tokenPat cover then dropAfterTok tokenPat cover else cover
  { course_id := cols.getD 0 []
    title := cols.getD 1 []
    category := cols.getD 2 []
    level := cols.getD 3 []
    description := stripEdgeQuotes (cols.getD 6 [])
    instructor := cols.getD 7 []
    thumbnail := coverUrl }

/-- The data-row loop of `loadCourses` (`csvLoader.ts:43`–`70`).  The second
component collects the warnings recorded while processing rows; the loop
contains no `console.warn`/`console.error` call, so no branch appends a
warning. -/
def processRows : List Str → List Course × List Str
  | [] => ([], [])
  | line :: rest =>
    let t := trimStr line
    if t = [] then processRows rest
    else
      let columns := parseLine t
      if columns.length < 9 then processRows rest
      else
        let p := processRows rest
        (mkCourse columns :: p.1, p.2)

/-- Embeds the body of `loadCourses` on a present file content: line 0 is
the header row (`lines[0]` is only used for the unused `headers` value),
and the loop runs over `lines[1..]`. -/
def loadCoursesRows (content : Str) : List Course × List Str :=
  processRows ((splitLines content).drop 1)

/-- Embeds `loadCourses` including its file-existence check and `try/catch`
wrapper: `none` models an absent catalog file (the code warns and returns
`[]`), `some content` models a readable file.  Every branch of the source
returns a list — the surrounding `catch` also returns `[]` — so no input is
mapped to `Except.error`. -/
def loadCourses (file : Option Str) : Except Str (List Course) :=
  match file with
  | none => .ok []
  | some content => .ok (loadCoursesRows content).1

/-- Decidable form of the row-keeping condition of the loop: the trimmed
row is non-empty and parses into at least 9 columns. -/
def keepRow (t : Str) : Bool :=
  !t.isEmpty && !decide ((parseLine t).length < 9)

/-! ## The chat store (`src/frontend/src/hooks/useChatStore.js`)

Identifier generation (`generateId`) and timestamps (`Date.now()`) are the
only impure inputs of the store actions; they are passed in explicitly, so
every action becomes a pure function on the store state. -/

/-- A message object as constructed by `addMessage`
(`useChatStore.js:65`–`74`).  The object spread `...metadata` contributes
the auxiliary keys passed by call sites; they are modelled as an extra
key-value list. -/
structure StoreMsg where
  id : String
  role : String
  content : String
  timestamp : Nat
  extra : List (String × String)
deriving DecidableEq, Repr

/-- A chat object.  `client_state = none` models a chat object constructed
without a `client_state` property (as in `deleteChat`'s replacement chat),
`some kvs` models a present object value. -/
structure Chat where
  id : String
  title : String
  messages : List StoreMsg
  client_state : Option (List (String × String))
deriving DecidableEq, Repr

/-- The store state: the `chats` array and `activeChatId`.  The JavaScript
falsy check `!activeChatId` is modelled by comparison with the empty
string. -/
structure Store where
  chats : List Chat
  activeChatId : String
deriving DecidableEq, Repr

/-- The default initial store (`useChatStore.js:17`–`18`, `26`): one fresh
chat, which is also the active one. -/
def initStore (initialId : String) : Store :=
  { chats := [⟨initialId, "New Chat", [], some []⟩], activeChatId := initialId }

/-- Embeds `createChat` (`useChatStore.js:38`–`42`). -/
def createChat (s : Store) (newId : String) : Store :=
  { chats := ⟨newId, "New Chat", [], some []⟩ :: s.chats, activeChatId := newId }

/-- Embeds `deleteChat` (`useChatStore.js:44`–`57`).  The replacement chat
built when the last chat is deleted has no `client_state` property in the
source, hence `none`. -/
def deleteChat (s : Store) (id newId : String) : Store :=
  match s.chats.filter (fun c => c.id != id) with
  | [] => { chats := [⟨newId, "New Chat", [], none⟩], activeChatId := newId }
  | c :: rest =>
    { chats := c :: rest
      activeChatId := if id = s.activeChatId then c.id else s.activeChatId }

/-- The message appended by `addMessage`: `customId || generateId()` for the
id, then role, content, timestamp and the spread metadata. -/
def newStoreMsg (role text : String) (customId : Option String) (genId : String)
    (ts : Nat) (md : List (String × String)) : StoreMsg :=
  { id := customId.getD genId, role := role, content := text, timestamp := ts, extra := md }

/-- The per-chat callback of `addMessage`'s `setChats(prev => prev.map(...))`
(`useChatStore.js:62`–`89`): only the active chat is rebuilt, with the new
message appended and the title rewritten when it is the first user message
of a chat still titled `New Chat`. -/
def addMessageUpd (active role text : String) (customId : Option String) (genId : String)
    (ts : Nat) (md : List (String × String)) (chat : Chat) : Chat :=
  if chat.id = active then
    let updatedMessages := chat.messages ++ [newStoreMsg role text customId genId ts md]
    let updatedTitle :=
      if chat.title = "New Chat" ∧ role = "user" then
        text.take 30 ++ (if 30 < text.length then "..." else "")
      else chat.title
    { chat with title := updatedTitle, messages := updatedMessages }
  else chat

/-- Embeds `addMessage` (`useChatStore.js:59`–`90`): a falsy `activeChatId`
returns without touching the store, otherwise the chats array is mapped
with the per-chat update. -/
def addMessage (s : Store) (role text : String) (customId : Option String) (genId : String)
    (ts : Nat) (md : List (String × String)) : Store :=
  if s.activeChatId = "" then s
  else { s with chats := s.chats.map (addMessageUpd s.activeChatId role text customId genId ts md) }

/-- Embeds `clearChat` (`useChatStore.js:113`–`120`). -/
def clearChat (s : Store) : Store :=
  { s with chats := s.chats.map (fun c =>
      if c.id = s.activeChatId then { c with messages := [], client_state := some [] } else c) }

/-- Embeds `updateClientState` (`useChatStore.js:122`–`129`): the client
state of the addressed chat is replaced wholesale. -/
def updateClientState (s : Store) (chatId : String) (state : List (String × String)) : Store :=
  { s with chats := s.chats.map (fun c =>
      if c.id = chatId then { c with client_state := some state } else c) }

/-- The store operations quantified over by the implicit chat-store
invariant, with their impure inputs (fresh ids, timestamps) as data. -/
inductive StoreOp where
  | create (newId : String)
  | delete (id newId : String)
  | add (role text : String) (customId : Option String) (genId : String)
      (ts : Nat) (md : List (String × String))
  | clear
deriving DecidableEq, Repr

/-- Applies one store operation. -/
def applyOp (s : Store) : StoreOp → Store
  | .create newId => createChat s newId
  | .delete id newId => deleteChat s id newId
  | .add role text customId genId ts md => addMessage s role text customId genId ts md
  | .clear => clearChat s

/-- Applies a sequence of store operations from left to right. -/
def runOps (s : Store) (ops : List StoreOp) : Store :=
  ops.foldl applyOp s

/-- The chat-store invariant: the chats list is non-empty and the active id
identifies a chat in the list. -/
def StoreInv (s : Store) : Prop :=
  s.chats ≠ [] ∧ ∃ c ∈ s.chats, c.id = s.activeChatId

/-! ## The HTTP client (`src/frontend/src/services/api.ts`) -/

/-- Field list of the `ChatResponse` interface (`api.ts:121`–`149`), in
declaration order; the boolean is `true` for fields declared optional
(`?`). -/
def chatResponseFields : List (String × Bool) :=
  [("session_id", false), ("intent", false), ("language", false), ("title", false),
   ("answer", false), ("cards", false), ("courses", false), ("one_question", true),
   ("request_id", false), ("meta", false), ("flow_state_updates", true),
   ("all_relevant_courses", true), ("projects", true), ("skill_groups", true),
   ("catalog_browsing", true), ("learning_plan", true), ("dashboard", true),
   ("error", true), ("ask", true), ("followup_question", true)]

/-- A parsed response body, with the required `ChatResponse` fields as data
and the optional ones as `Option`s.  Field value types other than the ones
the claims mention are abstracted to strings. -/
structure ChatResponse where
  session_id : String
  intent : String
  language : String
  title : String
  answer : String
  cards : List String
  courses : List String
  one_question : Option (String × List String)
  request_id : String
  meta : String
  learning_plan : Option String
  dashboard : Option String
  ask : Option (String × List String)
deriving DecidableEq, Repr

/-- The parts of a `fetch` response observed by `sendMessage`: the `ok`
flag, numeric `status`, `statusText`, and the JSON body (already parsed,
since `response.json()` is an unchecked cast in the source). -/
structure HttpResponse where
  ok : Bool
  status : Nat
  statusText : String
  body : ChatResponse
deriving DecidableEq, Repr

/-- Embeds `sendMessage` (`api.ts:154`–`174`) from the point the response
arrives: a non-ok response throws — a specific message for status 503, a
generic one otherwise — and only an ok response yields a `ChatResponse`. -/
def sendMessage (r : HttpResponse) : Except String ChatResponse :=
  if r.ok = false then
    if r.status = 503 then .error "LLM is currently unavailable. Please try again."
    else .error ("API error: " ++ r.statusText)
  else .ok r.body

/-! ## Spec-modelled backend pipeline

The Retriever, Relevance Guard and Response Builder live in the backend
service, whose sources are not part of this repository (only the frontend,
SQL migrations and scripts are).  The definitions in this namespace are
modelled from the specification, §3–§4.5. -/

namespace Backend

/-- Modelled from the spec: a `CourseRecord` catalog entry (§3); the level
enum is `0` Beginner, `1` Intermediate, `2` Advanced; `recency` orders
catalog entries by insertion date for the recency tie-break. -/
structure CourseRecord where
  id : Nat
  title : String
  category : String
  level : Nat
  durationHours : Nat
  skills : List Nat
  recency : Nat
deriving DecidableEq, Repr

/-- Modelled from the spec: the resolved slots read by the Retriever and
the Relevance Guard (§3, §4.3, §4.4). -/
structure Slots where
  domain : Option String
  skillIds : List Nat
  level : Option Nat
  titleQuery : Option String
deriving DecidableEq, Repr

/-- Modelled from the spec: the fixed intent label set (§3); `harmful`
stands for the spec's UNSAFE label. -/
inductive Intent where
  | search | careerGuidance | planRequest | courseDetails | titleUnknownSearch
  | cvAnalysis | explorationChoice | outOfScope | harmful | supportPolicy
deriving DecidableEq, Repr

/-- Modelled from the spec: match provenance of a retrieval candidate (§3). -/
inductive Provenance where
  | lexical | vector | skillExact
deriving DecidableEq, Repr

/-- Modelled from the spec: a `RetrievalCandidate` (§3). -/
structure RetrievalCandidate where
  course : CourseRecord
  score : Nat
  provenance : Provenance
deriving DecidableEq, Repr

/-- Modelled from the spec: size of the intersection between a course's
skill list and the resolved skill ids (§4.3 strategy 2). -/
def candScore (slots : Slots) (c : CourseRecord) : Nat :=
  (c.skills.filter (fun sk => slots.skillIds.contains sk)).length

/-- Modelled from the spec: the ranking order of §4.3 — intersection size
descending, then catalog recency descending, then the tie-break of shorter
duration first, then id for determinism. -/
def candBefore (a b : RetrievalCandidate) : Bool :=
  if a.score ≠ b.score then decide (b.score < a.score)
  else if a.course.recency ≠ b.course.recency then decide (b.course.recency < a.course.recency)
  else if a.course.durationHours ≠ b.course.durationHours then
    decide (a.course.durationHours < b.course.durationHours)
  else decide (a.course.id ≤ b.course.id)

/-- Inserts a candidate into a ranked list at its ordered position. -/
def insertCand (a : RetrievalCandidate) : List RetrievalCandidate → List RetrievalCandidate
  | [] => [a]
  | b :: bs => if candBefore a b then a :: b :: bs else b :: insertCand a bs

/-- Insertion sort by the ranking order. -/
def sortCands : List RetrievalCandidate → List RetrievalCandidate
  | [] => []
  | a :: as => insertCand a (sortCands as)

/-- Modelled from the spec: Retriever configuration (§4.3, §9) — the dense
vector similarity is a policy table reconstructed from the catalog and is
treated as configuration, as is the minimum skill-exact match count and
the per-intent result cap. -/
structure RetrieverConfig where
  vectorScore : CourseRecord → Nat
  minSkillMatches : Nat
  capFor : Intent → Nat

/-- Modelled from the spec: the Retriever (§4.3).  Strategy 1 serves exact
title matches for COURSE_DETAILS/TITLE_UNKNOWN_SEARCH as a single best
match; strategy 2 ranks skill-exact matches; strategy 3 fills the ranked
list from deterministic vector scores when skill-exact matches are below
the configured minimum.  The result is capped per intent. -/
def retrieve (cfg : RetrieverConfig) (catalog : List CourseRecord) (slots : Slots)
    (intent : Intent) : List RetrievalCandidate :=
  let titleCase := intent = Intent.courseDetails ∨ intent = Intent.titleUnknownSearch
  match slots.titleQuery, decide titleCase with
  | some t, true =>
    ((catalog.filter (fun c => c.title = t)).map
      (fun c => ⟨c, 1, Provenance.lexical⟩)).take 1
  | _, _ =>
    let skillCands := (catalog.filter (fun c => 0 < candScore slots c)).map
      (fun c => ⟨c, candScore slots c, Provenance.skillExact⟩)
    let ranked := sortCands skillCands
    let filled :=
      if ranked.length < cfg.minSkillMatches then
        let vecCands := (catalog.filter (fun c => candScore slots c = 0)).map
          (fun c => ⟨c, cfg.vectorScore c, Provenance.vector⟩)
        ranked ++ (sortCands vecCands).take (cfg.capFor intent - ranked.length)
      else ranked
    filled.take (cfg.capFor intent)

/-- Modelled from the spec: the enumerated rejection reasons (§3). -/
inductive RejectReason where
  | domainMismatch | levelMismatch | tokenCollision | duplicate
deriving DecidableEq, Repr

/-- Modelled from the spec: a `RelevanceVerdict` value (§3). -/
inductive Verdict where
  | accept
  | reject (reason : RejectReason)
deriving DecidableEq, Repr

/-- Modelled from the spec: Relevance Guard configuration (§4.4, §9) — the
disjoint-domain category pairs are a policy table treated as
configuration; `lastShown` is the last candidate set from the conversation
state and `askedMore` records an explicit request for more results. -/
structure GuardConfig where
  disjointDomains : String → String → Bool
  strictLevel : Bool
  lastShown : List Nat
  askedMore : Bool

/-- Modelled from the spec: the per-candidate Relevance Guard rules (§4.4),
applied in order — disjoint-domain rejection, strict level rejection
(requested Advanced against a Beginner-only candidate), duplicate
rejection against the last shown candidate set. -/
def guardVerdict (cfg : GuardConfig) (slots : Slots) (cand : RetrievalCandidate) : Verdict :=
  let domainClash :=
    match slots.domain with
    | some d => cfg.disjointDomains cand.course.category d
    | none => false
  if domainClash then .reject .domainMismatch
  else if cfg.strictLevel && slots.level == some 2 && cand.course.level == 0 then
    .reject .levelMismatch
  else if cfg.lastShown.contains cand.course.id && !cfg.askedMore then
    .reject .duplicate
  else .accept

/-- Modelled from the spec: the Relevance Guard (§4.4) — a verdict is
recorded for every input candidate, and the filtered list keeps exactly
the accepted candidates. -/
def guard (cfg : GuardConfig) (slots : Slots) :
    List RetrievalCandidate → List (Nat × Verdict) × List RetrievalCandidate
  | [] => ([], [])
  | c :: cs =>
    let p := guard cfg slots cs
    match guardVerdict cfg slots c with
    | .accept => ((c.course.id, .accept) :: p.1, c :: p.2)
    | v => ((c.course.id, v) :: p.1, p.2)

/-- Modelled from the spec: a course entry of a `StructuredResponse` (§6). -/
structure CourseEntry where
  id : Nat
  title : String
  category : String
  level : Nat
  duration : Nat
deriving DecidableEq, Repr

/-- Modelled from the spec: the `StructuredResponse` assembled by the
Response Builder (§4.5, §6). -/
structure StructuredResponse where
  intent : Intent
  language : String
  answer : String
  courses : List CourseEntry
  sessionId : String
  requestId : String
deriving DecidableEq, Repr

/-- Modelled from the spec: the Response Builder's course list (§4.5) —
entries are produced only from the guarded (accepted) candidates. -/
def buildResponse (intent : Intent) (language answer sessionId requestId : String)
    (accepted : List RetrievalCandidate) : StructuredResponse :=
  { intent := intent, language := language, answer := answer
    courses := accepted.map (fun c =>
      ⟨c.course.id, c.course.title, c.course.category, c.course.level, c.course.durationHours⟩)
    sessionId := sessionId, requestId := requestId }

/-- Result of one pipeline turn: the structured response together with the
guard verdict log recorded during that turn. -/
structure TurnResult where
  response : StructuredResponse
  verdictLog : List (Nat × Verdict)
deriving Repr

/-- Modelled from the spec: one retrieval-and-grounding turn (§2, §4.3–§4.5)
— retrieve, guard, build.  The turn takes no verdict log from any earlier
turn as input: the recorded verdicts are exactly the ones the guard
produces on this turn's candidates. -/
def runTurn (rcfg : RetrieverConfig) (gcfg : GuardConfig) (catalog : List CourseRecord)
    (slots : Slots) (intent : Intent) (language answer sessionId requestId : String) :
    TurnResult :=
  let cands := retrieve rcfg catalog slots intent
  let p := guard gcfg slots cands
  { response := buildResponse intent language answer sessionId requestId p.2
    verdictLog := p.1 }

/-- Effectful computations available to pipeline components: a finished
value, a language-model call, a network call, or a draw of randomness.
Used to state that a component performs none of the latter three. -/
inductive Eff (α : Type) where
  | done (a : α)
  | llmCall (prompt : String) (k : String → Eff α)
  | netCall (url : String) (k : String → Eff α)
  | randomBits (k : Nat → Eff α)

/-- Runs a computation under an interpreter that refuses every effect:
only computations that make no language-model, network or randomness
request produce a value. -/
def runPure {α : Type} : Eff α → Option α
  | .done a => some a
  | .llmCall _ _ => none
  | .netCall _ _ => none
  | .randomBits _ => none

/-- Modelled from the spec: the Retriever as a pipeline component (§4.3) —
its computation finishes immediately with the ranked list, requesting no
language-model call, network call or randomness. -/
def retrieverEff (cfg : RetrieverConfig) (catalog : List CourseRecord) (slots : Slots)
    (intent : Intent) : Eff (List RetrievalCandidate) :=
  .done (retrieve cfg catalog slots intent)

end Backend

/-! ## Concrete sample values used by witnesses and counterexamples -/

/-- Catalog content whose single data row is malformed (one column). -/
def w2content : Str := "course_id,title\nbadrow".toList

/-- Catalog content with one well-formed and one malformed data row. -/
def w3content : Str := "h1,h2,h3,h4,h5,h6,h7,h8,h9\na,b,c,d,e,f,g,h,i\nbadrow".toList

/-- The course record loaded from the well-formed row of `w3content`. -/
def w3course : Course :=
  { course_id := "a".toList, title := "b".toList, category := "c".toList,
    level := "d".toList, description := "g".toList, instructor := "h".toList,
    thumbnail := "i".toList }

/-- Catalog content whose data row carries a token-bearing cover URL. -/
def w10content : Str :=
  "h1,h2,h3,h4,h5,h6,h7,h8,h9\nid1,Title,Cat,Beginner,5,sk,desc,inst,http://x/img.png?token=SECRET".toList

/-- The course record loaded from the data row of `w10content`, with the
token suffix stripped from the thumbnail. -/
def w10course : Course :=
  { course_id := "id1".toList, title := "Title".toList, category := "Cat".toList,
    level := "Beginner".toList, description := "desc".toList, instructor := "inst".toList,
    thumbnail := "http://x/img.png".toList }

/-- A concrete parsed response body. -/
def sampleChatResponse : ChatResponse :=
  { session_id := "s1", intent := "SEARCH", language := "en", title := "t",
    answer := "a", cards := [], courses := [], one_question := none,
    request_id := "r1", meta := "", learning_plan := none, dashboard := none,
    ask := none }

/-- A concrete 503 response. -/
def sampleHttp503 : HttpResponse :=
  { ok := false, status := 503, statusText := "Service Unavailable", body := sampleChatResponse }

/-- A concrete ok response. -/
def sampleHttpOk : HttpResponse :=
  { ok := true, status := 200, statusText := "OK", body := sampleChatResponse }

/-- A concrete store with two chats, the first one active. -/
def s9 : Store :=
  { chats := [⟨"c1", "New Chat", [], some []⟩, ⟨"c2", "T2", [], some []⟩],
    activeChatId := "c1" }

/-- A concrete one-course catalog for the backend model. -/
def catW : List Backend.CourseRecord :=
  [{ id := 1, title := "Intro to Data", category := "Data", level := 0,
     durationHours := 5, skills := [1], recency := 1 }]

/-- Concrete resolved slots matching skill 1. -/
def slotsW : Backend.Slots :=
  { domain := some "Data", skillIds := [1], level := none, titleQuery := none }

/-- A concrete retriever configuration. -/
def cfgW : Backend.RetrieverConfig :=
  { vectorScore := fun _ => 0, minSkillMatches := 3, capFor := fun _ => 10 }

/-- A concrete guard configuration with no disjoint domains and nothing
previously shown. -/
def gcfgW : Backend.GuardConfig :=
  { disjointDomains := fun _ _ => false, strictLevel := false,
    lastShown := [], askedMore := false }

/-! ## Helper lemmas -/

/-- The row loop is the filter-map of the kept rows, and records no
warning. -/
theorem processRows_eq (ls : List Str) :
    processRows ls =
      (((ls.map trimStr).filter keepRow).map (fun t => mkCourse (parseLine t)), []) := by
  induction ls with
  | nil => rfl
  | cons line rest ih =>
    simp only [processRows, List.map_cons, List.filter_cons]
    by_cases h1 : trimStr line = []
    · simp [h1, keepRow, ih]
    · by_cases h2 : (parseLine (trimStr line)).length < 9
      · simp [h1, h2, keepRow, ih, List.isEmpty_iff]
      · simp [h1, h2, keepRow, ih, List.isEmpty_iff]

/-- A prefix of the output of `dropAfterTok` is a prefix of its input. -/
theorem isPrefixOf_dropAfterTok (pat : Str) :
    ∀ (s p : Str), p.isPrefixOf (dropAfterTok pat s) = true → p.isPrefixOf s = true := by
  intro s
  induction s with
  | nil => intro p h; simpa [dropAfterTok] using h
  | cons c cs ih =>
    intro p h
    by_cases hp : pat.isPrefixOf (c :: cs) = true
    · rw [dropAfterTok, if_pos hp] at h
      cases p with
      | nil => simp [List.isPrefixOf]
      | cons a as => simp [List.isPrefixOf] at h
    · rw [dropAfterTok, if_neg hp] at h
      cases p with
      | nil => simp [List.isPrefixOf]
      | cons a as =>
        simp only [List.isPrefixOf, Bool.and_eq_true, beq_iff_eq] at h ⊢
        exact ⟨h.1, ih as h.2⟩

/-- The output of `dropAfterTok` contains no occurrence of a non-empty
pattern. -/
theorem hasTok_dropAfterTok (pat : Str) (hne : pat ≠ []) :
    ∀ s : Str, hasTok pat (dropAfterTok pat s) = false := by
  intro s
  induction s with
  | nil => simpa [dropAfterTok, hasTok, List.isEmpty_iff] using hne
  | cons c cs ih =>
    by_cases hp : pat.isPrefixOf (c :: cs) = true
    · rw [dropAfterTok, if_pos hp]
      simpa [hasTok, List.isEmpty_iff] using hne
    · rw [dropAfterTok, if_neg hp, hasTok, Bool.or_eq_false_iff]
      refine ⟨?_, ih⟩
      by_contra hpre
      rw [Bool.not_eq_false] at hpre
      apply hp
      cases pat with
      | nil => simp [List.isPrefixOf]
      | cons a as =>
        simp only [List.isPrefixOf, Bool.and_eq_true, beq_iff_eq] at hpre ⊢
        exact ⟨hpre.1, isPrefixOf_dropAfterTok (a :: as) cs as hpre.2⟩

/-- Every course record built by `mkCourse` has a token-free thumbnail. -/
theorem mkCourse_thumbnail (cols : List Str) :
    hasTok tokenPat (mkCourse cols).thumbnail = false := by
  have hne : tokenPat ≠ [] := by decide
  unfold mkCourse
  by_cases h : hasTok tokenPat (cols.getD 8 []) = true
  · simp only [h, if_true]
    exact hasTok_dropAfterTok tokenPat hne _
  · rw [Bool.not_eq_true] at h
    simp only [h, Bool.false_eq_true, if_false]

/-- Verdict-log equation of the guard on an accepted head candidate. -/
theorem Backend.guard_cons_accept_fst (cfg : Backend.GuardConfig) (slots : Backend.Slots)
    (a : Backend.RetrievalCandidate) (rest : List Backend.RetrievalCandidate)
    (h : Backend.guardVerdict cfg slots a = Backend.Verdict.accept) :
    (Backend.guard cfg slots (a :: rest)).1 =
      (a.course.id, Backend.Verdict.accept) :: (Backend.guard cfg slots rest).1 := by
  rw [Backend.guard, h]

/-- Filtered-list equation of the guard on an accepted head candidate. -/
theorem Backend.guard_cons_accept_snd (cfg : Backend.GuardConfig) (slots : Backend.Slots)
    (a : Backend.RetrievalCandidate) (rest : List Backend.RetrievalCandidate)
    (h : Backend.guardVerdict cfg slots a = Backend.Verdict.accept) :
    (Backend.guard cfg slots (a :: rest)).2 = a :: (Backend.guard cfg slots rest).2 := by
  rw [Backend.guard, h]

/-- Verdict-log equation of the guard on a rejected head candidate. -/
theorem Backend.guard_cons_reject_fst (cfg : Backend.GuardConfig) (slots : Backend.Slots)
    (a : Backend.RetrievalCandidate) (rest : List Backend.RetrievalCandidate)
    (r : Backend.RejectReason)
    (h : Backend.guardVerdict cfg slots a = Backend.Verdict.reject r) :
    (Backend.guard cfg slots (a :: rest)).1 =
      (a.course.id, Backend.Verdict.reject r) :: (Backend.guard cfg slots rest).1 := by
  rw [Backend.guard, h]

/-- Filtered-list equation of the guard on a rejected head candidate. -/
theorem Backend.guard_cons_reject_snd (cfg : Backend.GuardConfig) (slots : Backend.Slots)
    (a : Backend.RetrievalCandidate) (rest : List Backend.RetrievalCandidate)
    (r : Backend.RejectReason)
    (h : Backend.guardVerdict cfg slots a = Backend.Verdict.reject r) :
    (Backend.guard cfg slots (a :: rest)).2 = (Backend.guard cfg slots rest).2 := by
  rw [Backend.guard, h]

/-- Every candidate kept by the guard has an ACCEPT verdict in the guard's
verdict log for the same candidate list. -/
theorem Backend.guard_accept_mem (cfg : Backend.GuardConfig) (slots : Backend.Slots) :
    ∀ (l : List Backend.RetrievalCandidate) (c : Backend.RetrievalCandidate),
      c ∈ (Backend.guard cfg slots l).2 →
      (c.course.id, Backend.Verdict.accept) ∈ (Backend.guard cfg slots l).1 := by
  intro l
  induction l with
  | nil => intro c hc; simp [Backend.guard] at hc
  | cons a rest ih =>
    intro c hc
    cases hv : Backend.guardVerdict cfg slots a with
    | accept =>
      rw [Backend.guard_cons_accept_snd cfg slots a rest hv] at hc
      rw [Backend.guard_cons_accept_fst cfg slots a rest hv]
      rcases List.mem_cons.mp hc with he | hm
      · rw [he]; exact List.mem_cons_self _ _
      · exact List.mem_cons_of_mem _ (ih c hm)
    | reject r =>
      rw [Backend.guard_cons_reject_snd cfg slots a rest r hv] at hc
      rw [Backend.guard_cons_reject_fst cfg slots a rest r hv]
      exact List.mem_cons_of_mem _ (ih c hc)

/-- Mapping an idempotent per-element update twice equals mapping it
once. -/
theorem map_idem {α : Type} (f : α → α) (hf : ∀ a, f (f a) = f a) (l : List α) :
    (l.map f).map f = l.map f := by
  induction l with
  | nil => rfl
  | cons a l ih => simp only [List.map_cons, hf, ih]

/-- The per-chat update of `addMessage` never changes a chat's id. -/
theorem addMessageUpd_id (active role text : String) (customId : Option String)
    (genId : String) (ts : Nat) (md : List (String × String)) (c : Chat) :
    (addMessageUpd active role text customId genId ts md c).id = c.id := by
  unfold addMessageUpd
  split <;> rfl

/-- Each store operation preserves the chat-store invariant. -/
theorem applyOp_inv (s : Store) (op : StoreOp) (h : StoreInv s) : StoreInv (applyOp s op) := by
  obtain ⟨hne, c0, hc0, hid⟩ := h
  cases op with
  | create newId =>
    exact ⟨List.cons_ne_nil _ _, ⟨newId, "New Chat", [], some []⟩, List.mem_cons_self _ _, rfl⟩
  | delete id newId =>
    simp only [applyOp, deleteChat]
    split
    next hfil =>
      exact ⟨List.cons_ne_nil _ _, ⟨newId, "New Chat", [], none⟩, List.mem_cons_self _ _, rfl⟩
    next c rest hfil =>
      refine ⟨List.cons_ne_nil _ _, ?_⟩
      by_cases hia : id = s.activeChatId
      · exact ⟨c, List.mem_cons_self _ _, by simp [hia]⟩
      · refine ⟨c0, ?_, by simp [hia, hid]⟩
        rw [← hfil, List.mem_filter]
        refine ⟨hc0, ?_⟩
        simp only [bne_iff_ne, ne_eq]
        intro heq
        exact hia (by rw [← heq, hid])
  | add role text customId genId ts md =>
    simp only [applyOp, addMessage]
    by_cases hact : s.activeChatId = ""
    · rw [if_pos hact]
      exact ⟨hne, c0, hc0, hid⟩
    · rw [if_neg hact]
      refine ⟨fun hm => hne (by simpa using hm), ?_⟩
      exact ⟨addMessageUpd s.activeChatId role text customId genId ts md c0,
        List.mem_map_of_mem _ hc0, by rw [addMessageUpd_id]; exact hid⟩
  | clear =>
    simp only [applyOp, clearChat]
    refine ⟨fun hm => hne (by simpa using hm), ?_⟩
    refine ⟨_, List.mem_map_of_mem _ hc0, ?_⟩
    by_cases hc : c0.id = s.activeChatId <;> simp [hc, hid]

/-- Invariant preservation along any operation sequence. -/
theorem runOps_inv (ops : List StoreOp) :
    ∀ s : Store, StoreInv s → StoreInv (runOps s ops) := by
  induction ops with
  | nil => intro s h; exact h
  | cons op rest ih => intro s h; exact ih (applyOp s op) (applyOp_inv s op h)

/-! ## Claim theorems -/

/-- C2 counterexample: the single data row of `w2content` is missing
required columns and is dropped, but the warning log stays empty — the
source's row loop records no warning, refuting the claim that every such
row is dropped with a recorded warning. -/
theorem loadCourses_missing_column_cex :
    (loadCoursesRows w2content).1 = [] ∧ (loadCoursesRows w2content).2 = [] := by
  decide

/-- C2 (amended): `loadCourses` returns a course record for exactly those
data rows that are non-empty after trimming and parse into at least the 9
required columns; every other row is dropped silently — no warning is
recorded — and a dropped row never makes loading fail (the loop is total
and never throws). -/
theorem loadCourses_column_contract (content : Str) :
    (loadCoursesRows content).1 =
      ((((splitLines content).drop 1).map trimStr).filter keepRow).map
        (fun t => mkCourse (parseLine t)) ∧
    (loadCoursesRows content).2 = [] := by
  rw [loadCoursesRows, processRows_eq]
  exact ⟨rfl, rfl⟩

/-- C3 counterexample: an absent catalog file yields a successful empty
catalog rather than a fatal error, and a file with one well-formed and one
malformed row yields a partial catalog — refuting the claim that catalog
load failure is fatal and that no partial catalog is ever served. -/
theorem loadCourses_nonfatal_cex :
    loadCourses none = Except.ok [] ∧
    loadCourses (some w3content) = Except.ok [w3course] := by
  constructor
  · rfl
  · rfl

/-- C3 (amended): catalog load failure is non-fatal — `loadCourses` never
returns an error: an absent file produces an empty catalog (with a logged
warning) and malformed content produces the partial catalog of its
well-formed rows. -/
theorem loadCourses_never_fatal :
    (∀ file : Option Str, ∃ cs : List Course, loadCourses file = Except.ok cs) ∧
    loadCourses none = Except.ok [] := by
  refine ⟨?_, rfl⟩
  intro file
  cases file with
  | none => exact ⟨[], rfl⟩
  | some content => exact ⟨(loadCoursesRows content).1, rfl⟩

/-- C10: every course returned by `loadCourses` has a thumbnail with no
occurrence of the substring `?token=` — any token query suffix in the
catalog row's cover column is removed before the record is returned. -/
theorem loadCourses_thumbnail_no_token (content : Str) (c : Course)
    (hc : c ∈ (loadCoursesRows content).1) :
    hasTok tokenPat c.thumbnail = false := by
  rw [loadCoursesRows, processRows_eq] at hc
  obtain ⟨t, -, rfl⟩ := List.mem_map.mp hc
  exact mkCourse_thumbnail (parseLine t)

/-- C10 witness: the course loaded from `w10content` (whose cover carries a
`?token=` suffix) is in the loaded list and its thumbnail is token-free. -/
theorem loadCourses_thumbnail_no_token_witness :
    w10course ∈ (loadCoursesRows w10content).1 ∧
    hasTok tokenPat w10course.thumbnail = false :=
  ⟨by decide, loadCourses_thumbnail_no_token w10content w10course (by decide)⟩

/-- C4: `sendMessage` fails closed — every non-ok HTTP response makes it
throw instead of returning a `ChatResponse`, a 503 status throws the
distinct service-unavailable message, and a `ChatResponse` is returned
only for an ok response (and is exactly the parsed body, never a
fabricated answer). -/
theorem sendMessage_fails_closed (r : HttpResponse) :
    (r.ok = false → ∃ e, sendMessage r = Except.error e) ∧
    (r.ok = false → r.status = 503 →
      sendMessage r = Except.error "LLM is currently unavailable. Please try again.") ∧
    (∀ resp : ChatResponse, sendMessage r = Except.ok resp → r.ok = true ∧ resp = r.body) := by
  unfold sendMessage
  refine ⟨?_, ?_, ?_⟩
  · intro hok
    rw [if_pos hok]
    by_cases h503 : r.status = 503
    · rw [if_pos h503]; exact ⟨_, rfl⟩
    · rw [if_neg h503]; exact ⟨_, rfl⟩
  · intro hok h503
    rw [if_pos hok, if_pos h503]
  · intro resp h
    rcases Bool.eq_false_or_eq_true r.ok with h1 | h1
    · rw [if_neg (by simp [h1])] at h
      injection h with hb
      exact ⟨h1, hb.symm⟩
    · rw [if_pos h1] at h
      by_cases h503 : r.status = 503
      · rw [if_pos h503] at h; exact Except.noConfusion h
      · rw [if_neg h503] at h; exact Except.noConfusion h

/-- C4 witness: the concrete 503 response throws the distinct message, and
the concrete ok response returns its parsed body. -/
theorem sendMessage_fails_closed_witness :
    sampleHttp503.ok = false ∧
    sendMessage sampleHttp503 =
      Except.error "LLM is currently unavailable. Please try again." ∧
    (sampleHttpOk.ok = true ∧ sampleHttpOk.body = sampleHttpOk.body) :=
  ⟨rfl, (sendMessage_fails_closed sampleHttp503).2.1 rfl rfl,
    (sendMessage_fails_closed sampleHttpOk).2.2 sampleHttpOk.body rfl⟩

/-- C5: field contract of the `ChatResponse` interface accepted by the
client from the chat endpoint (`api.ts:121`–`149`): `intent`, `language`,
`answer`, `courses`, `session_id` and `request_id` are declared required,
`ask`, `learning_plan` and `dashboard` are declared optional, and every
field is declared exactly once. -/
theorem chatResponse_field_contract :
    ("intent", false) ∈ chatResponseFields ∧
    ("language", false) ∈ chatResponseFields ∧
    ("answer", false) ∈ chatResponseFields ∧
    ("courses", false) ∈ chatResponseFields ∧
    ("session_id", false) ∈ chatResponseFields ∧
    ("request_id", false) ∈ chatResponseFields ∧
    ("ask", true) ∈ chatResponseFields ∧
    ("learning_plan", true) ∈ chatResponseFields ∧
    ("dashboard", true) ∈ chatResponseFields ∧
    (chatResponseFields.map Prod.fst).Nodup := by
  decide

/-- C7: applying `updateClientState` a second time with the same chat id
and state value leaves the store exactly as after the first application —
slot state is set wholesale, not appended. -/
theorem updateClientState_idempotent (s : Store) (chatId : String)
    (st : List (String × String)) :
    updateClientState (updateClientState s chatId st) chatId st =
      updateClientState s chatId st := by
  unfold updateClientState
  congr 1
  refine map_idem _ ?_ s.chats
  intro c
  by_cases h : c.id = chatId <;> simp [h]

/-- C8: after any sequence of create/delete/add/clear operations from the
initial store, the chats list is non-empty and `activeChatId` identifies a
chat in the list; in particular, deleting the last remaining chat replaces
it with a fresh empty chat rather than leaving the list empty. -/
theorem chatStore_invariant :
    (∀ (initialId : String) (ops : List StoreOp),
      StoreInv (runOps (initStore initialId) ops)) ∧
    (∀ (c : Chat) (newId : String),
      (deleteChat { chats := [c], activeChatId := c.id } c.id newId).chats =
        [⟨newId, "New Chat", [], none⟩]) := by
  constructor
  · intro initialId ops
    refine runOps_inv ops (initStore initialId) ?_
    exact ⟨List.cons_ne_nil _ _, ⟨initialId, "New Chat", [], some []⟩,
      List.mem_cons_self _ _, rfl⟩
  · intro c newId
    unfold deleteChat
    simp

/-- C9: `addMessage` frame property — with a falsy active id the store is
unchanged; otherwise the active id is unchanged, the chats list is the
per-chat update mapped over the old list, any chat whose id differs from
the active id is untouched, and the active chat keeps its id and client
state, gets exactly the one new message appended at the end, and keeps its
title except in the first-user-message rename case. -/
theorem addMessage_frame (s : Store) (role text : String) (customId : Option String)
    (genId : String) (ts : Nat) (md : List (String × String)) :
    (s.activeChatId = "" → addMessage s role text customId genId ts md = s) ∧
    (s.activeChatId ≠ "" →
      (addMessage s role text customId genId ts md).activeChatId = s.activeChatId ∧
      (addMessage s role text customId genId ts md).chats =
        s.chats.map (addMessageUpd s.activeChatId role text customId genId ts md)) ∧
    (∀ c : Chat, c.id ≠ s.activeChatId →
      addMessageUpd s.activeChatId role text customId genId ts md c = c) ∧
    (∀ c : Chat, c.id = s.activeChatId →
      (addMessageUpd s.activeChatId role text customId genId ts md c).id = c.id ∧
      (addMessageUpd s.activeChatId role text customId genId ts md c).client_state =
        c.client_state ∧
      (addMessageUpd s.activeChatId role text customId genId ts md c).messages =
        c.messages ++ [newStoreMsg role text customId genId ts md] ∧
      (¬(c.title = "New Chat" ∧ role = "user") →
        (addMessageUpd s.activeChatId role text customId genId ts md c).title = c.title) ∧
      ((c.title = "New Chat" ∧ role = "user") →
        (addMessageUpd s.activeChatId role text customId genId ts md c).title =
          text.take 30 ++ (if 30 < text.length then "..." else ""))) := by
  refine ⟨?_, ?_, ?_, ?_⟩
  · intro hact
    unfold addMessage
    rw [if_pos hact]
  · intro hact
    unfold addMessage
    rw [if_neg hact]
    exact ⟨rfl, rfl⟩
  · intro c hc
    unfold addMessageUpd
    rw [if_neg hc]
  · intro c hc
    unfold addMessageUpd
    rw [if_pos hc]
    refine ⟨rfl, rfl, rfl, ?_, ?_⟩
    · intro hnt
      simp only [if_neg hnt]
    · intro ht
      simp only [if_pos ht]

/-- C9 witness: on the concrete two-chat store, the active id is truthy
and preserved, and the non-active chat is untouched by the per-chat
update. -/
theorem addMessage_frame_witness :
    s9.activeChatId ≠ "" ∧
    (addMessage s9 "user" "hello" none "m1" 7 []).activeChatId = s9.activeChatId ∧
    addMessageUpd s9.activeChatId "user" "hello" none "m1" 7 [] ⟨"c2", "T2", [], some []⟩ =
      ⟨"c2", "T2", [], some []⟩ :=
  ⟨by decide, ((addMessage_frame s9 "user" "hello" none "m1" 7 []).2.1 (by decide)).1,
    (addMessage_frame s9 "user" "hello" none "m1" 7 []).2.2.1 ⟨"c2", "T2", [], some []⟩
      (by decide)⟩

/-- C6: Retriever determinism — the Retriever runs to completion under the
effect-refusing interpreter (so it performs no language-model, network or
randomness request), and any two results obtained for the same catalog
snapshot and the same resolved slots are identical, namely the pure ranked
list `retrieve`. -/
theorem retriever_deterministic (cfg : Backend.RetrieverConfig)
    (catalog : List Backend.CourseRecord) (slots : Backend.Slots)
    (intent : Backend.Intent) (l₁ l₂ : List Backend.RetrievalCandidate)
    (h₁ : Backend.runPure (Backend.retrieverEff cfg catalog slots intent) = some l₁)
    (h₂ : Backend.runPure (Backend.retrieverEff cfg catalog slots intent) = some l₂) :
    l₁ = l₂ ∧
    Backend.runPure (Backend.retrieverEff cfg catalog slots intent) =
      some (Backend.retrieve cfg catalog slots intent) :=
  ⟨Option.some.inj (h₁.symm.trans h₂), rfl⟩

/-- C6 witness: two concrete invocations on the sample catalog and slots
yield the same ranked list, and the effect-free run succeeds. -/
theorem retriever_deterministic_witness :
    Backend.retrieve cfgW catW slotsW Backend.Intent.search =
      Backend.retrieve cfgW catW slotsW Backend.Intent.search ∧
    Backend.runPure (Backend.retrieverEff cfgW catW slotsW Backend.Intent.search) =
      some (Backend.retrieve cfgW catW slotsW Backend.Intent.search) :=
  retriever_deterministic cfgW catW slotsW Backend.Intent.search _ _ rfl rfl

/-- C1: grounding invariant — every course id appearing in the
`StructuredResponse` of a turn has an ACCEPT verdict in that same turn's
verdict log, and the verdict log is exactly the guard's output on this
turn's retrieved candidates (the turn takes no cached verdict from an
earlier turn as input). -/
theorem grounding_invariant (rcfg : Backend.RetrieverConfig) (gcfg : Backend.GuardConfig)
    (catalog : List Backend.CourseRecord) (slots : Backend.Slots) (intent : Backend.Intent)
    (language answer sessionId requestId : String) (cid : Nat)
    (h : cid ∈ (Backend.runTurn rcfg gcfg catalog slots intent language answer sessionId
      requestId).response.courses.map Backend.CourseEntry.id) :
    ((cid, Backend.Verdict.accept) ∈
      (Backend.runTurn rcfg gcfg catalog slots intent language answer sessionId
        requestId).verdictLog) ∧
    (Backend.runTurn rcfg gcfg catalog slots intent language answer sessionId
        requestId).verdictLog =
      (Backend.guard gcfg slots (Backend.retrieve rcfg catalog slots intent)).1 := by
  refine ⟨?_, rfl⟩
  have h' : cid ∈
      ((Backend.guard gcfg slots (Backend.retrieve rcfg catalog slots intent)).2).map
        (fun c => c.course.id) := by
    simpa [Backend.runTurn, Backend.buildResponse, List.map_map, Function.comp] using h
  obtain ⟨c, hc, rfl⟩ := List.mem_map.mp h'
  exact Backend.guard_accept_mem gcfg slots _ c hc

/-- C1 witness: on the concrete one-course catalog, course id 1 appears in
the turn's response and carries an ACCEPT verdict in the same turn's log. -/
theorem grounding_invariant_witness :
    (1 : Nat) ∈ (Backend.runTurn cfgW gcfgW catW slotsW Backend.Intent.search
      "en" "answer" "s1" "r1").response.courses.map Backend.CourseEntry.id ∧
    ((1 : Nat), Backend.Verdict.accept) ∈
      (Backend.runTurn cfgW gcfgW catW slotsW Backend.Intent.search
        "en" "answer" "s1" "r1").verdictLog :=
  ⟨by decide, (grounding_invariant cfgW gcfgW catW slotsW Backend.Intent.search
    "en" "answer" "s1" "r1" 1 (by decide)).1⟩
